import Mathlib

/-!
Verification development for the aimock repository (question generation and
answer evaluation engines).  Texts are modelled as `List Char`; Python floats
are modelled as rationals; the random source is modelled as an explicit
oracle of natural numbers, with `random.choice(xs)` drawing `xs[n % len xs]`.
-/

/-! ## Basic text helpers -/

/-- Whitespace characters stripped by Python's `str.strip()`. -/
def isSpaceC (c : Char) : Bool :=
  c = ' ' || c = '\t' || c = '\n' || c = '\r' || c = '\x0c' || c = '\x0b'

/-- Python `str.strip()` on a character list. -/
def strip (l : List Char) : List Char :=
  ((l.dropWhile isSpaceC).reverse.dropWhile isSpaceC).reverse

/-- Python `str.lower()` (ASCII). -/
def lowerC (l : List Char) : List Char := l.map Char.toLower

/-- `isPrefixC n h` decides whether `n` is a prefix of `h`. -/
def isPrefixC : List Char → List Char → Bool
  | [], _ => true
  | _ :: _, [] => false
  | a :: as, b :: bs => a = b && isPrefixC as bs

/-- Python's `needle in hay` substring test. -/
def containsSub (n : List Char) : List Char → Bool
  | [] => isPrefixC n []
  | c :: t => isPrefixC n (c :: t) || containsSub n t

/-- Worker for `replaceSub`; the fuel argument only makes the recursion
structural and never runs out when it starts at the haystack's length. -/
def replaceAux (n r : List Char) : ℕ → List Char → List Char
  | _, [] => []
  | 0, hay => hay
  | fuel + 1, c :: t =>
    if !n.isEmpty && isPrefixC n (c :: t) then
      r ++ replaceAux n r fuel ((c :: t).drop n.length)
    else
      c :: replaceAux n r fuel t

/-- Python's `hay.replace(needle, repl)`: left-to-right, non-overlapping,
replaces every occurrence.  An empty needle is left untouched (the source
only ever replaces non-empty placeholder markers). -/
def replaceSub (n r hay : List Char) : List Char := replaceAux n r hay.length hay

/-- The characters classified by Python's regex `\w`. -/
def isWordChar (c : Char) : Bool := c.isAlphanum || c = '_'

/-- Worker for `tokenize`: `some acc` holds the current (reversed) run of
word characters. -/
def tokAux : Option (List Char) → List Char → List (List Char)
  | some acc, [] => [acc.reverse]
  | none, [] => []
  | some acc, c :: t =>
    if isWordChar c then tokAux (some (c :: acc)) t
    else acc.reverse :: tokAux none t
  | none, c :: t =>
    if isWordChar c then tokAux (some [c]) t else tokAux none t

/-- `re.findall(r'\b\w+\b', text)`: the maximal runs of word characters. -/
def tokenize (l : List Char) : List (List Char) := tokAux none l

/-- Sentence-terminating punctuation used by the evaluator's fallback. -/
def isPunctC (c : Char) : Bool := c = '.' || c = '!' || c = '?'

/-- Worker for `splitPunct`: `some acc` holds the current (reversed) field,
`none` means we are inside a punctuation run whose field is already out. -/
def spAux : Option (List Char) → List Char → List (List Char)
  | some acc, [] => [acc.reverse]
  | none, [] => [[]]
  | some acc, c :: t =>
    if isPunctC c then acc.reverse :: spAux none t
    else spAux (some (c :: acc)) t
  | none, c :: t =>
    if isPunctC c then spAux none t else spAux (some [c]) t

/-- `re.split(r'[.!?]+', text)`: the fields between maximal punctuation
runs (empty fields at the ends included, as in Python). -/
def splitPunct (l : List Char) : List (List Char) := spAux (some []) l

/-- `l.getD (n % l.length) d` is a member of `l` whenever `l` is non-empty. -/
theorem choose_mem {α : Type} [Inhabited α] (l : List α) (n : ℕ) (d : α)
    (h : l ≠ []) : l.getD (n % l.length) d ∈ l := by
  have hlen : 0 < l.length := List.length_pos.mpr h
  have hlt : n % l.length < l.length := Nat.mod_lt _ hlen
  rw [List.getD_eq_getElem l d hlt]
  exact List.getElem_mem hlt

/-! ## Question generator: domain knowledge (`_load_domain_knowledge`) -/

/-- A domain's knowledge entry.  Each Python dict key becomes a field; keys a
domain does not carry are the empty list (the source never reads them for
that domain). -/
structure Knowledge where
  topics : List (List Char)
  concepts : List (List Char × List (List Char))
  technologies : List (List Char)
  situations : List (List Char)
  challenges : List (List Char)
  scenarios : List (List Char)
  styles : List (List Char)
deriving DecidableEq

def emptyKnowledge : Knowledge :=
  { topics := [], concepts := [], technologies := [], situations := []
  , challenges := [], scenarios := [], styles := [] }

def itKnowledge : Knowledge :=
  { emptyKnowledge with
    topics := [
      "Object-Oriented Programming".data, "Data Structures".data, "Algorithms".data,
      "Database Design".data, "RESTful APIs".data, "Microservices Architecture".data,
      "Cloud Computing".data, "DevOps".data, "Software Testing".data, "Version Control".data,
      "Design Patterns".data, "System Design".data, "Security".data,
      "Performance Optimization".data]
    concepts := [
      ("OOP".data, ["Encapsulation".data, "Inheritance".data, "Polymorphism".data,
        "Abstraction".data]),
      ("Data Structures".data, ["Arrays".data, "Linked Lists".data, "Stacks".data,
        "Queues".data, "Trees".data, "Graphs".data]),
      ("Algorithms".data, ["Sorting".data, "Searching".data, "Dynamic Programming".data,
        "Greedy Algorithms".data]),
      ("Databases".data, ["SQL".data, "NoSQL".data, "ACID Properties".data,
        "Normalization".data, "Indexing".data])]
    technologies := ["Python".data, "Java".data, "JavaScript".data, "React".data,
      "Node.js".data, "Docker".data, "Kubernetes".data] }

def hrKnowledge : Knowledge :=
  { emptyKnowledge with
    topics := ["Teamwork".data, "Leadership".data, "Problem Solving".data,
      "Communication".data, "Time Management".data, "Conflict Resolution".data,
      "Adaptability".data, "Work Ethics".data]
    situations := ["worked under pressure".data, "handled a difficult situation".data,
      "led a team project".data, "resolved a conflict".data, "learned a new skill".data,
      "made a mistake".data, "achieved a goal".data,
      "worked with a difficult colleague".data]
    challenges := ["tight deadlines".data, "conflicting priorities".data,
      "team disagreements".data, "unclear requirements".data,
      "resource constraints".data] }

def financeKnowledge : Knowledge :=
  { emptyKnowledge with
    topics := ["Financial Analysis".data, "Investment Banking".data,
      "Risk Management".data, "Accounting Principles".data, "Financial Modeling".data,
      "Market Analysis".data, "Portfolio Management".data, "Corporate Finance".data]
    concepts := [
      ("Analysis".data, ["DCF".data, "NPV".data, "IRR".data, "ROI".data,
        "Financial Ratios".data]),
      ("Markets".data, ["Stock Market".data, "Bond Market".data, "Derivatives".data,
        "Forex".data]),
      ("Tools".data, ["Excel".data, "Bloomberg".data, "Financial Statements".data,
        "Valuation Models".data])]
    scenarios := ["company valuation".data, "investment decision".data,
      "risk assessment".data, "market trend analysis".data, "financial planning".data] }

def managementKnowledge : Knowledge :=
  { emptyKnowledge with
    topics := ["Leadership".data, "Strategic Planning".data, "Team Management".data,
      "Change Management".data, "Decision Making".data, "Performance Management".data]
    situations := ["leading a team".data, "managing a project".data,
      "handling underperformance".data, "implementing change".data,
      "making strategic decisions".data]
    styles := ["Transformational".data, "Transactional".data, "Servant Leadership".data,
      "Democratic".data, "Autocratic".data] }

def itName : List Char := "IT/Software Engineering".data
def hrName : List Char := "HR/Human Resources".data
def financeName : List Char := "Finance".data
def managementName : List Char := "Management".data

/-- `_load_domain_knowledge`: domain name → knowledge, in insertion order. -/
def domainKnowledge : List (List Char × Knowledge) :=
  [(itName, itKnowledge), (hrName, hrKnowledge),
   (financeName, financeKnowledge), (managementName, managementKnowledge)]

/-- Association-list lookup (Python dict access with a default). -/
def lookupD {α β : Type} [DecidableEq α] (l : List (α × β)) (k : α) (d : β) : β :=
  match l with
  | [] => d
  | (k', v) :: t => if k = k' then v else lookupD t k d

/-- Python `key in dict` over an association list. -/
def hasKey {α β : Type} [DecidableEq α] (l : List (α × β)) (k : α) : Bool :=
  match l with
  | [] => false
  | (k', _) :: t => k = k' || hasKey t k

/-! ## Question generator: templates (`_load_question_templates`) -/

/-- ASCII apostrophe, used inside a few template strings. -/
def apoC : Char := Char.ofNat 39

def itTemplates : List (List Char) :=
  [ "Explain \x7btopic\x7d and its importance in software development.".data,
    "What is the difference between \x7bconcept1\x7d and \x7bconcept2\x7d?".data,
    "How would you design a system to handle \x7bscenario\x7d?".data,
    "Describe your experience with \x7btechnology\x7d. What challenges did you face?".data,
    "What are the best practices for implementing \x7btopic\x7d?".data,
    "How would you optimize a \x7bcomponent\x7d for better performance?".data,
    "Explain the trade-offs between \x7boption1\x7d and \x7boption2\x7d.".data,
    "How do you ensure code quality when working with \x7btechnology\x7d?".data,
    "Describe a time when you had to debug a complex issue related to \x7btopic\x7d.".data,
    "What security considerations should be taken when working with \x7btechnology\x7d?".data ]

def hrTemplates : List (List Char) :=
  [ "Tell me about yourself and your professional background.".data,
    "Describe a time when you \x7bsituation\x7d. What was the outcome?".data,
    "How do you handle \x7bchallenge\x7d in the workplace?".data,
    "What are your greatest strengths and how do they help you in your role?".data,
    "Can you share an example of a weakness you".data ++ [apoC] ++ "ve worked on improving?".data,
    "Why are you interested in this position and our company?".data,
    "How do you prioritize tasks when you have multiple deadlines?".data,
    "Describe a situation where you had to work with a difficult team member.".data,
    "How do you stay motivated during challenging projects?".data,
    "Where do you see yourself in 5 years?".data ]

def financeTemplates : List (List Char) :=
  [ "Explain \x7bconcept\x7d and its application in financial analysis.".data,
    "How would you analyze \x7bscenario\x7d from a financial perspective?".data,
    "What factors would you consider when evaluating \x7binvestment_type\x7d?".data,
    "Describe your experience with \x7btool\x7d and how you".data ++ [apoC] ++ "ve used it in analysis.".data,
    "How do you assess the financial health of a company?".data,
    "Explain the impact of \x7bevent\x7d on financial markets.".data,
    "What is your approach to risk management in \x7bcontext\x7d?".data,
    "How would you present financial data to non-financial stakeholders?".data,
    "Describe a time when your financial analysis led to an important decision.".data,
    "What trends do you see in the current financial market?".data ]

def managementTemplates : List (List Char) :=
  [ "How do you motivate and inspire your team members?".data,
    "Describe a time when you had to make a difficult decision as a manager.".data,
    "How do you handle conflict within your team?".data,
    "What is your leadership style and how has it evolved?".data,
    "How do you prioritize tasks and manage your team".data ++ [apoC] ++ "s workload?".data,
    "Describe a situation where you had to manage an underperforming team member.".data,
    "How do you ensure effective communication within your team?".data,
    "What strategies do you use for change management?".data,
    "How do you balance the needs of your team with organizational goals?".data,
    "Describe your approach to developing and mentoring team members.".data ]

/-- `_load_question_templates`. -/
def questionTemplates : List (List Char × List (List Char)) :=
  [(itName, itTemplates), (hrName, hrTemplates),
   (financeName, financeTemplates), (managementName, managementTemplates)]

/-! ## Question generator: template filling (`_fill_template`) -/

/-- `random.choice(xs)` given an oracle value `n`. -/
def chooseD (l : List (List Char)) (n : ℕ) : List Char :=
  l.getD (n % l.length) []

/-- Auxiliary vocabularies that `_fill_template` defines inline. -/
def auxScenarios : List (List Char) :=
  ["high traffic".data, "data consistency".data, "scalability".data, "security".data]

def auxComponents : List (List Char) :=
  ["database query".data, "API endpoint".data, "frontend component".data, "algorithm".data]

def auxOptions : List (List Char × List Char) :=
  [("SQL".data, "NoSQL".data), ("Monolithic".data, "Microservices".data),
   ("Synchronous".data, "Asynchronous".data), ("Caching".data, "Database queries".data)]

def auxInvestments : List (List Char) :=
  ["stocks".data, "bonds".data, "real estate".data, "startups".data, "mutual funds".data]

def auxEvents : List (List Char) :=
  ["interest rate changes".data, "market volatility".data, "economic recession".data,
   "regulatory changes".data]

def auxContexts : List (List Char) :=
  ["portfolio management".data, "corporate finance".data, "investment banking".data]

def topicPh : List Char := "\x7btopic\x7d".data
def concept1Ph : List Char := "\x7bconcept1\x7d".data
def concept2Ph : List Char := "\x7bconcept2\x7d".data
def technologyPh : List Char := "\x7btechnology\x7d".data
def scenarioPh : List Char := "\x7bscenario\x7d".data
def componentPh : List Char := "\x7bcomponent\x7d".data
def option1Ph : List Char := "\x7boption1\x7d".data
def option2Ph : List Char := "\x7boption2\x7d".data
def situationPh : List Char := "\x7bsituation\x7d".data
def challengePh : List Char := "\x7bchallenge\x7d".data
def conceptPh : List Char := "\x7bconcept\x7d".data
def investmentTypePh : List Char := "\x7binvestment_type\x7d".data
def toolPh : List Char := "\x7btool\x7d".data
def eventPh : List Char := "\x7bevent\x7d".data
def contextPh : List Char := "\x7bcontext\x7d".data

/-- `random.sample(pair, 2)` given two oracle values: `n2` picks the first
member's index, `n3` an index into the remaining members. -/
def samplePair (pair : List (List Char)) (n2 n3 : ℕ) : List Char × List Char :=
  let i := n2 % pair.length
  let c1 := pair.getD i []
  let rest := pair.eraseIdx i
  (c1, rest.getD (n3 % rest.length) [])

/-- The paired-concept branch of `_fill_template`: replace both concept
slots when the drawn group has at least two members, otherwise leave the
template untouched. -/
def fillConceptPair (template : List Char) (pair : List (List Char))
    (n2 n3 : ℕ) : List Char :=
  if 2 ≤ pair.length then
    let c := samplePair pair n2 n3
    replaceSub concept2Ph c.2 (replaceSub concept1Ph c.1 template)
  else template

/-- `_fill_template`.  The three oracle values stand for the random draws a
branch may make: `n1` selects a value/group, `n2` and `n3` drive
`random.sample(concept_pair, 2)` (first index, then index into the rest). -/
def fillTemplate (template domain : List Char) (knowledge : Knowledge)
    (n1 n2 n3 : ℕ) : List Char :=
  if domain = itName then
    if containsSub topicPh template then
      replaceSub topicPh (chooseD knowledge.topics n1) template
    else if containsSub concept1Ph template && containsSub concept2Ph template then
      fillConceptPair template
        ((knowledge.concepts.map Prod.snd).getD
          (n1 % (knowledge.concepts.map Prod.snd).length) []) n2 n3
    else if containsSub technologyPh template then
      replaceSub technologyPh (chooseD knowledge.technologies n1) template
    else if containsSub scenarioPh template then
      replaceSub scenarioPh (chooseD auxScenarios n1) template
    else if containsSub componentPh template then
      replaceSub componentPh (chooseD auxComponents n1) template
    else if containsSub option1Ph template && containsSub option2Ph template then
      let opts := auxOptions.getD (n1 % auxOptions.length) ([], [])
      replaceSub option2Ph opts.2 (replaceSub option1Ph opts.1 template)
    else template
  else if domain = hrName then
    if containsSub situationPh template then
      replaceSub situationPh (chooseD knowledge.situations n1) template
    else if containsSub challengePh template then
      replaceSub challengePh (chooseD knowledge.challenges n1) template
    else template
  else if domain = financeName then
    if containsSub conceptPh template then
      let allConcepts := (knowledge.concepts.map Prod.snd).flatten
      if allConcepts.isEmpty then template
      else replaceSub conceptPh (chooseD allConcepts n1) template
    else if containsSub scenarioPh template then
      replaceSub scenarioPh (chooseD knowledge.scenarios n1) template
    else if containsSub investmentTypePh template then
      replaceSub investmentTypePh (chooseD auxInvestments n1) template
    else if containsSub toolPh template then
      replaceSub toolPh (chooseD (lookupD knowledge.concepts ("Tools".data) []) n1) template
    else if containsSub eventPh template then
      replaceSub eventPh (chooseD auxEvents n1) template
    else if containsSub contextPh template then
      replaceSub contextPh (chooseD auxContexts n1) template
    else template
  else if domain = managementName then
    if containsSub situationPh template then
      replaceSub situationPh (chooseD knowledge.situations n1) template
    else template
  else template

/-! ## Question generator: question type and main loop -/

/-- `_determine_question_type`. -/
def determineQuestionType (template : List Char) : List Char :=
  let tl := lowerC template
  if ["describe".data, "tell me".data, "share".data, "time when".data].any
      (fun w => containsSub w tl) then
    "behavioral".data
  else if ["how would".data, "how do".data, "what would".data].any
      (fun w => containsSub w tl) then
    "situational".data
  else if ["explain".data, "what is".data, "difference between".data].any
      (fun w => containsSub w tl) then
    "technical".data
  else
    "general".data

structure GeneratedQuestion where
  text : List Char
  qtype : List Char
  difficulty : List Char
  domain : List Char
deriving DecidableEq

/-- One loop iteration of `generate_questions`, returning the chosen template
alongside the question built from it.  `o i j` is the `j`-th random draw of
iteration `i`. -/
def genLoop (templates : List (List Char)) (knowledge : Knowledge)
    (domain difficulty : List Char) (o : ℕ → ℕ → ℕ) :
    ℕ → ℕ → List (List Char) → List (List Char × GeneratedQuestion)
  | _, 0, _ => []
  | i, fuel + 1, used =>
    let avail := templates.filter (fun t => !used.contains t)
    let avail2 := if avail.isEmpty then templates else avail
    let used2 := if avail.isEmpty then ([] : List (List Char)) else used
    let template := avail2.getD (o i 0 % avail2.length) []
    let q : GeneratedQuestion :=
      { text := fillTemplate template domain knowledge (o i 1) (o i 2) (o i 3)
      , qtype := determineQuestionType template
      , difficulty := difficulty
      , domain := domain }
    (template, q) :: genLoop templates knowledge domain difficulty o (i + 1) fuel
      (template :: used2)

/-- `QuestionGenerator.generate_questions`.  `num` is the Python int
`num_questions` (`range` over a non-positive bound is empty). -/
def generateQuestions (domain : List Char) (num : ℤ) (difficulty : List Char)
    (o : ℕ → ℕ → ℕ) : List GeneratedQuestion :=
  let domain2 := if hasKey domainKnowledge domain then domain else itName
  let knowledge := lookupD domainKnowledge domain2 emptyKnowledge
  let templates := lookupD questionTemplates domain2 []
  (genLoop templates knowledge domain2 difficulty o 0 num.toNat []).map Prod.snd

/-- The template-selection trace of one `generate_questions` call. -/
def selectedTemplates (domain : List Char) (num : ℤ) (difficulty : List Char)
    (o : ℕ → ℕ → ℕ) : List (List Char) :=
  let domain2 := if hasKey domainKnowledge domain then domain else itName
  let knowledge := lookupD domainKnowledge domain2 emptyKnowledge
  let templates := lookupD questionTemplates domain2 []
  (genLoop templates knowledge domain2 difficulty o 0 num.toNat []).map Prod.fst

/-- `start_interview` in `app.py`: persist the generated questions with
`order_number = idx + 1` from `enumerate`. -/
def attachOrderNumbers (qs : List GeneratedQuestion) : List (ℕ × GeneratedQuestion) :=
  qs.enum.map (fun p => (p.1 + 1, p.2))

/-! ## Answer evaluator: indicator tables and helpers -/

def positiveIndicators : List (List Char) :=
  ["experience".data, "implemented".data, "successful".data, "achieved".data,
   "improved".data, "solved".data, "developed".data, "managed".data, "led".data,
   "collaborated".data, "optimized".data, "analyzed".data, "designed".data,
   "delivered".data, "exceeded".data, "enhanced".data]

def negativeIndicators : List (List Char) :=
  ["didn".data ++ [apoC] ++ "t".data, "couldn".data ++ [apoC] ++ "t".data,
   "failed".data, "unable".data, "lack".data, "limited".data, "struggled".data,
   "difficult".data, "problem".data, "issue".data, "challenge".data]

def technicalIndicators : List (List Char) :=
  ["algorithm".data, "architecture".data, "framework".data, "methodology".data,
   "pattern".data, "optimization".data, "scalability".data, "performance".data,
   "security".data, "database".data, "api".data, "microservice".data,
   "deployment".data, "testing".data, "debugging".data]

def communicationIndicators : List (List Char) :=
  ["clearly".data, "effectively".data, "communicated".data, "explained".data,
   "presented".data, "discussed".data, "collaborated".data, "coordinated".data,
   "aligned".data, "understood".data]

def minimumLength : ℕ := 20
def idealLength : ℕ := 100

/-- `sum(1 for w in ws if w in hay)`: how many listed words occur as
substrings of `hay`. -/
def countOccur (ws : List (List Char)) (hay : List Char) : ℕ :=
  (ws.filter (fun w => containsSub w hay)).length

/-- `len(set(a) & set(b))`: the number of distinct common elements. -/
def interCount (a b : List (List Char)) : ℕ :=
  (a.dedup.filter (fun x => b.contains x)).length

def dedupFirstAux (seen : List (List Char)) : List (List Char) → List (List Char)
  | [] => []
  | w :: ws =>
    if seen.contains w then dedupFirstAux seen ws
    else w :: dedupFirstAux (w :: seen) ws

/-- Order-preserving duplicate removal keeping first occurrences (the
`seen`-set loop in `_extract_keywords`). -/
def dedupFirst (l : List (List Char)) : List (List Char) := dedupFirstAux [] l

/-- Python `round(x, 2)` idealised over the rationals.  Exact halves round
up here where Python rounds to even; no property proved below depends on
the tie-breaking direction. -/
def round2 (q : ℚ) : ℚ := (round (q * 100) : ℤ) / 100

/-! ## Answer evaluator: the optional language-analysis provider (spaCy) -/

/-- The per-token data the evaluator reads off a spaCy token. -/
structure Token where
  text : List Char
  lem : List Char
  pos : List Char
  isStop : Bool
  isPunct : Bool

/-- The language-analysis capabilities the evaluator consumes when a spaCy
model is loaded: sentence segmentation (with per-token analyses), named
entities, and pairwise document similarity. -/
structure NLP where
  sents : List Char → List (List Token)
  ents : List Char → List (List Char)
  similarity : List Char → List Char → ℚ

/-- All tokens of an analysed document. -/
def docTokens (p : NLP) (txt : List Char) : List Token := (p.sents txt).flatten

/-! ## Answer evaluator: sub-scores -/

/-- The sentence-structure block of `_evaluate_clarity` (spaCy analysis
when available, the regex fallback otherwise). -/
def clarityStructureBonus : Option NLP → List Char → ℚ
  | some p, answerText =>
    let sentences := p.sents answerText
    let a : ℚ := if 1 < sentences.length then 10 else 0
    let avgSentenceLength : ℚ :=
      if sentences.isEmpty then 0
      else ((sentences.map List.length).sum : ℚ) / (sentences.length : ℚ)
    let b : ℚ :=
      if 10 ≤ avgSentenceLength ∧ avgSentenceLength ≤ 30 then 10
      else if 50 < avgSentenceLength then -5 else 0
    let c : ℚ := if (docTokens p answerText).any (fun t => t.isPunct) then 5 else 0
    let hasVerbs := (docTokens p answerText).any (fun t => t.pos = "VERB".data)
    let hasNouns := (docTokens p answerText).any (fun t => t.pos = "NOUN".data)
    let d : ℚ := if hasVerbs ∧ hasNouns then 5 else 0
    a + b + c + d
  | none, answerText =>
    let a : ℚ := if 1 < (splitPunct answerText).length then 10 else 0
    let b : ℚ :=
      if [('.' : Char), '!', '?'].any (fun c => answerText.contains c) then 5 else 0
    a + b

/-- The capitalisation check of `_evaluate_clarity` (`answer_text[0].isupper()`;
the source only reaches it on non-empty answers). -/
def capitalBonus (answerText : List Char) : ℚ :=
  match answerText with
  | c :: _ => if c.isUpper then 5 else 0
  | [] => 0

/-- `_evaluate_clarity`. -/
def evaluateClarity (nlp : Option NLP) (answerText : List Char)
    (answerLength : ℕ) : ℚ :=
  let s1 : ℚ := if minimumLength ≤ answerLength then 20 else 0
  let s2 : ℚ :=
    if minimumLength ≤ answerLength ∧ answerLength ≤ idealLength * 2 then 10 else 0
  min (50 + s1 + s2 + clarityStructureBonus nlp answerText + capitalBonus answerText) 100

/-- `_extract_keywords`. -/
def extractKeywords (nlp : Option NLP) (text : List Char) : List (List Char) :=
  match nlp with
  | some p =>
    let keywords := ((docTokens p text).filter (fun t =>
        (t.pos = "NOUN".data ∨ t.pos = "VERB".data ∨ t.pos = "ADJ".data)
        ∧ t.isStop = false ∧ t.isPunct = false ∧ 3 < t.text.length)).map
      (fun t => lowerC t.lem)
    (dedupFirst keywords).take 15
  | none =>
    let stopWords : List (List Char) :=
      ["the".data, "a".data, "an".data, "and".data, "or".data, "but".data,
       "in".data, "on".data, "at".data, "to".data, "for".data, "of".data,
       "with".data, "by".data, "is".data, "are".data, "was".data, "were".data,
       "be".data, "been".data, "being".data, "have".data, "has".data, "had".data,
       "do".data, "does".data, "did".data, "will".data, "would".data,
       "should".data, "could".data, "may".data, "might".data, "must".data,
       "this".data, "that".data, "these".data, "those".data, "i".data,
       "you".data, "he".data, "she".data, "it".data, "we".data, "they".data]
    let words := tokenize (lowerC text)
    let keywords := words.filter (fun w => !stopWords.contains w && 3 < w.length)
    keywords.take 10

/-- The fallback stopword set of `_extract_keywords`, named for reuse in
statements. -/
def fallbackStopWords : List (List Char) :=
  ["the".data, "a".data, "an".data, "and".data, "or".data, "but".data,
   "in".data, "on".data, "at".data, "to".data, "for".data, "of".data,
   "with".data, "by".data, "is".data, "are".data, "was".data, "were".data,
   "be".data, "been".data, "being".data, "have".data, "has".data, "had".data,
   "do".data, "does".data, "did".data, "will".data, "would".data,
   "should".data, "could".data, "may".data, "might".data, "must".data,
   "this".data, "that".data, "these".data, "those".data, "i".data,
   "you".data, "he".data, "she".data, "it".data, "we".data, "they".data]

/-- The lemmatised noun/verb keywords (stopwords excluded) that
`_evaluate_accuracy` extracts from a spaCy document. -/
def spacyKeywordsNV (p : NLP) (text : List Char) : List (List Char) :=
  ((docTokens p text).filter (fun t =>
      (t.pos = "NOUN".data ∨ t.pos = "VERB".data) ∧ t.isStop = false)).map
    (fun t => lowerC t.lem)

/-- The named-entity overlap count of `_evaluate_accuracy`. -/
def entityOverlapCount (p : NLP) (answerText questionText : List Char) : ℕ :=
  interCount ((p.ents questionText).map lowerC) ((p.ents answerText).map lowerC)

/-- The lemma-overlap count of `_evaluate_accuracy`. -/
def lemmaOverlapCount (p : NLP) (answerText questionText : List Char) : ℕ :=
  interCount (spacyKeywordsNV p questionText) (spacyKeywordsNV p answerText)

/-- The lexical keyword-overlap count of `_evaluate_accuracy`'s fallback. -/
def keywordOverlapCount (answerText questionText : List Char) : ℕ :=
  interCount (extractKeywords none questionText) (extractKeywords none answerText)

/-- The relevance-signal block of `_evaluate_accuracy`: semantic
similarity, entity overlap and lemma overlap with spaCy, keyword overlap
without. -/
def accuracySignalBonus : Option NLP → List Char → List Char → ℚ
  | some p, answerText, questionText =>
    let similarity := p.similarity answerText questionText
    let e : ℚ := if 0 < entityOverlapCount p answerText questionText then
        min ((entityOverlapCount p answerText questionText : ℚ) * 5) 15
      else 0
    let k : ℚ := if 0 < lemmaOverlapCount p answerText questionText then
        min ((lemmaOverlapCount p answerText questionText : ℚ) * 3) 20
      else 0
    similarity * 30 + e + k
  | none, answerText, questionText =>
    if 0 < keywordOverlapCount answerText questionText then
      min ((keywordOverlapCount answerText questionText : ℚ) * 10) 30
    else 0

/-- The technical-term block of `_evaluate_accuracy`. -/
def accuracyTechBonus (answerLower questionLower : List Char) : ℚ :=
  if ["explain".data, "what is".data, "difference".data, "how".data].any
      (fun w => containsSub w questionLower) then
    min ((countOccur technicalIndicators answerLower : ℚ) * 5) 20
  else 0

/-- The specific-example block of `_evaluate_accuracy`. -/
def accuracyExampleBonus (answerLower : List Char) : ℚ :=
  if ["example".data, "instance".data, "case".data, "time when".data].any
      (fun w => containsSub w answerLower) then 10 else 0

/-- The accumulated accuracy score of `_evaluate_accuracy` before the
difficulty multiplier and the final cap are applied. -/
def accuracyPre (nlp : Option NLP) (answerText questionText : List Char) : ℚ :=
  40 + accuracySignalBonus nlp answerText questionText +
    accuracyTechBonus (lowerC answerText) (lowerC questionText) +
    accuracyExampleBonus (lowerC answerText)

/-- The difficulty multiplier of `_evaluate_accuracy`. -/
def difficultyMult (difficulty : List Char) : ℚ :=
  if difficulty = "hard".data then 9 / 10
  else if difficulty = "easy".data then 11 / 10
  else 1

/-- `_evaluate_accuracy`. -/
def evaluateAccuracy (nlp : Option NLP) (answerText questionText difficulty : List Char) : ℚ :=
  min (accuracyPre nlp answerText questionText * difficultyMult difficulty) 100

/-- The fixed transition-word list of `_evaluate_communication`. -/
def transitionWords : List (List Char) :=
  ["first".data, "second".data, "then".data, "finally".data, "additionally".data,
   "however".data, "therefore".data, "moreover".data, "furthermore".data,
   "consequently".data]

/-- The fixed structure-cue list of `_evaluate_communication`. -/
def structureWords : List (List Char) :=
  ["first".data, "second".data, "then".data, "finally".data, "additionally".data,
   "however".data, "therefore".data]

/-- The transition-lemma token count of `_evaluate_communication`. -/
def transitionCount (p : NLP) (answerText : List Char) : ℕ :=
  ((docTokens p answerText).filter (fun t =>
    transitionWords.contains (lowerC t.lem))).length

/-- The coordinating/subordinating-conjunction token count of
`_evaluate_communication`. -/
def conjunctionCount (p : NLP) (answerText : List Char) : ℕ :=
  ((docTokens p answerText).filter (fun t =>
    t.pos = "CCONJ".data ∨ t.pos = "SCONJ".data)).length

/-- The spaCy block of `_evaluate_communication`: transition lemmas,
conjunction tokens and sentence-length variety. -/
def commNLPBonus : Option NLP → List Char → ℚ
  | some p, answerText =>
    let a : ℚ := min ((transitionCount p answerText : ℚ) * 5) 15
    let b : ℚ := if 0 < conjunctionCount p answerText then
        min ((conjunctionCount p answerText : ℚ) * 2) 10
      else 0
    let sentenceLengths := (p.sents answerText).map List.length
    let c : ℚ :=
      if 1 < sentenceLengths.length then
        if 5 < sentenceLengths.foldl max 0 -
            (sentenceLengths.foldl min (sentenceLengths.headD 0)) then 5 else 0
      else 0
    a + b + c
  | none, _ => 0

/-- `_evaluate_communication`. -/
def evaluateCommunication (nlp : Option NLP) (answerText answerLower : List Char) : ℚ :=
  let s2 : ℚ := min ((countOccur communicationIndicators answerLower : ℚ) * 8) 20
  let s3 : ℚ := min ((countOccur structureWords answerLower : ℚ) * 5) 15
  let s4 : ℚ := min ((countOccur positiveIndicators answerLower : ℚ) * 3) 15
  min (50 + commNLPBonus nlp answerText + s2 + s3 + s4) 100

/-- `_evaluate_confidence`. -/
def evaluateConfidence (answerLower : List Char) : ℚ :=
  let confidentPhrases : List (List Char) :=
    ["i am confident".data, "i believe".data, "i know".data,
     "i have experience".data, "i successfully".data, "i achieved".data,
     "i implemented".data, "i led".data]
  let s1 : ℚ := min ((countOccur confidentPhrases answerLower : ℚ) * 10) 30
  let hedgingPhrases : List (List Char) :=
    ["maybe".data, "perhaps".data, "i think".data, "i guess".data,
     "not sure".data, "uncertain".data]
  let s2 : ℚ := min ((countOccur hedgingPhrases answerLower : ℚ) * 5) 20
  let s3 : ℚ :=
    if ["when i".data, "in my experience".data, "i have".data].any
        (fun w => containsSub w answerLower) then 10 else 0
  let s4 : ℚ := min ((countOccur negativeIndicators answerLower : ℚ) * 3) 15
  max (min (50 + s1 - s2 + s3 - s4) 100) 0

/-! ## Answer evaluator: feedback, strengths, improvements, result record -/

/-- `_generate_feedback`. -/
def generateFeedback (clarity accuracy communication confidence overall : ℚ)
    (answerLength : ℕ) : List Char :=
  let overallPart : List Char :=
    if 80 ≤ overall then
      "Excellent answer! You demonstrated strong understanding and communication skills.".data
    else if 65 ≤ overall then
      "Good answer with room for improvement in some areas.".data
    else if 50 ≤ overall then
      "Adequate answer, but consider providing more detail and structure.".data
    else
      "Your answer needs significant improvement. Focus on clarity and providing specific examples.".data
  let clarityParts : List (List Char) :=
    if clarity < 60 then
      ["Work on making your answer clearer and more structured. Use complete sentences and proper punctuation.".data]
    else if 80 ≤ clarity then
      ["Your answer was clear and well-structured.".data]
    else []
  let accuracyParts : List (List Char) :=
    if accuracy < 60 then
      ["Try to be more specific and relevant to the question. Include relevant examples or details.".data]
    else if 80 ≤ accuracy then
      ["Your answer was accurate and directly addressed the question.".data]
    else []
  let communicationParts : List (List Char) :=
    if communication < 60 then
      ["Improve your communication by using transition words and organizing your thoughts better.".data]
    else if 80 ≤ communication then
      ["You communicated your ideas effectively.".data]
    else []
  let confidenceParts : List (List Char) :=
    if confidence < 60 then
      ["Be more confident in your responses. Avoid hedging language and provide concrete examples from your experience.".data]
    else if 80 ≤ confidence then
      ["You demonstrated confidence in your knowledge and experience.".data]
    else []
  let lengthParts : List (List Char) :=
    if answerLength < minimumLength then
      ["Your answer is too short. Aim for at least 20 characters to provide a comprehensive response.".data]
    else if idealLength * 3 < answerLength then
      ["Your answer is quite long. Consider being more concise while maintaining key points.".data]
    else []
  List.intercalate (" ".data)
    ([overallPart] ++ clarityParts ++ accuracyParts ++ communicationParts ++
      confidenceParts ++ lengthParts)

/-- `_identify_strengths`. -/
def identifyStrengths (clarity accuracy communication confidence : ℚ)
    (answerLower : List Char) : List (List Char) :=
  let s1 := if 70 ≤ clarity then ["Clear and well-structured response".data] else []
  let s2 := if 70 ≤ accuracy then ["Accurate and relevant information".data] else []
  let s3 := if 70 ≤ communication then ["Effective communication".data] else []
  let s4 := if 70 ≤ confidence then ["Confident expression".data] else []
  let s5 :=
    if ["example".data, "instance".data, "experience".data].any
        (fun w => containsSub w answerLower) then
      ["Used specific examples".data]
    else []
  let s6 :=
    if technicalIndicators.any (fun w => containsSub w answerLower) then
      ["Demonstrated technical knowledge".data]
    else []
  let all := s1 ++ s2 ++ s3 ++ s4 ++ s5 ++ s6
  if all.isEmpty then ["Attempted to answer the question".data] else all

/-- `_identify_improvements`. -/
def identifyImprovements (clarity accuracy communication confidence : ℚ)
    (answerLength : ℕ) : List (List Char) :=
  let s1 := if clarity < 70 then ["Improve clarity and structure of your response".data] else []
  let s2 := if accuracy < 70 then ["Provide more accurate and relevant information".data] else []
  let s3 := if communication < 70 then ["Enhance communication skills and organization".data] else []
  let s4 := if confidence < 70 then ["Build confidence in your responses".data] else []
  let s5 :=
    if answerLength < minimumLength then ["Provide more detailed answers".data]
    else if idealLength * 3 < answerLength then
      ["Be more concise while maintaining key points".data]
    else []
  let all := s1 ++ s2 ++ s3 ++ s4 ++ s5
  if all.isEmpty then
    ["Continue practicing to maintain your strong performance".data]
  else all

structure EvaluationResult where
  clarity : ℚ
  accuracy : ℚ
  communication : ℚ
  confidence : ℚ
  overall : ℚ
  feedback : List Char
  strengths : List (List Char)
  improvements : List (List Char)
deriving DecidableEq

/-- `_generate_failed_evaluation`. -/
def failedEvaluation (reason : List Char) : EvaluationResult :=
  { clarity := 0, accuracy := 0, communication := 0, confidence := 0, overall := 0
  , feedback := reason
  , strengths := []
  , improvements := ["Provide a complete answer to the question".data] }

/-- `AnswerEvaluator.evaluate_answer`. -/
def evaluateAnswer (nlp : Option NLP) (answerText questionText difficulty : List Char) :
    EvaluationResult :=
  if answerText = [] ∨ (strip answerText).length < 10 then
    failedEvaluation ("Answer is too short or empty.".data)
  else
    let answerLower := lowerC answerText
    let answerLength := answerText.length
    let clarityScore := evaluateClarity nlp answerText answerLength
    let accuracyScore := evaluateAccuracy nlp answerText questionText difficulty
    let communicationScore := evaluateCommunication nlp answerText answerLower
    let confidenceScore := evaluateConfidence answerLower
    let overallScore :=
      clarityScore * 0.25 + accuracyScore * 0.30 +
      communicationScore * 0.25 + confidenceScore * 0.20
    { clarity := round2 clarityScore
    , accuracy := round2 accuracyScore
    , communication := round2 communicationScore
    , confidence := round2 confidenceScore
    , overall := round2 overallScore
    , feedback := generateFeedback clarityScore accuracyScore communicationScore
        confidenceScore overallScore answerLength
    , strengths := identifyStrengths clarityScore accuracyScore communicationScore
        confidenceScore answerLower
    , improvements := identifyImprovements clarityScore accuracyScore
        communicationScore confidenceScore answerLength }

/-- No literal placeholder marker characters occur in the text. -/
def noBrace (l : List Char) : Bool :=
  l.all (fun c => !(c = Char.ofNat 123 || c = Char.ofNat 125))

/-! ## General lemmas about the generation loop -/

theorem genLoop_length (T : List (List Char)) (K : Knowledge) (dom diff : List Char)
    (o : ℕ → ℕ → ℕ) (fuel : ℕ) :
    ∀ i used, (genLoop T K dom diff o i fuel used).length = fuel := by
  induction fuel with
  | zero => intro i used; rfl
  | succ n ih =>
    intro i used
    simp only [genLoop, List.length_cons, ih]

theorem attachOrderNumbers_map_fst (qs : List GeneratedQuestion) :
    (attachOrderNumbers qs).map Prod.fst = List.range' 1 qs.length := by
  unfold attachOrderNumbers
  rw [List.map_map]
  have h1 : (Prod.fst ∘ fun p : ℕ × GeneratedQuestion => (p.1 + 1, p.2)) =
      (fun x => x + 1) ∘ Prod.fst := rfl
  rw [h1, ← List.map_map, List.enum_map_fst, List.range'_eq_map_range]
  exact (List.map_congr_left (fun x hx => by omega)).symm

theorem genLoop_domain_eq (T : List (List Char)) (K : Knowledge) (dom diff : List Char)
    (o : ℕ → ℕ → ℕ) (fuel : ℕ) :
    ∀ i used p, p ∈ genLoop T K dom diff o i fuel used → p.2.domain = dom := by
  induction fuel with
  | zero => intro i used p hp; simp [genLoop] at hp
  | succ n ih =>
    intro i used p hp
    simp only [genLoop, List.mem_cons] at hp
    rcases hp with hp | hp
    · rw [hp]
    · exact ih _ _ _ hp

/-! ## C1: question count and ordinals -/

/-- C1: for every domain, difficulty, integer count and random draw,
`generate_questions` returns exactly `count` records (the empty sequence
when `count ≤ 0`), and persisting them through `start_interview` assigns
the 1-based order numbers `1..count` in generation order. -/
theorem c1_generateQuestions_count_ordinals (domain : List Char) (num : ℤ)
    (difficulty : List Char) (o : ℕ → ℕ → ℕ) :
    (generateQuestions domain num difficulty o).length = num.toNat ∧
    (num ≤ 0 → generateQuestions domain num difficulty o = []) ∧
    (attachOrderNumbers (generateQuestions domain num difficulty o)).map Prod.fst =
      List.range' 1 num.toNat := by
  have hlen : (generateQuestions domain num difficulty o).length = num.toNat := by
    unfold generateQuestions
    rw [List.length_map, genLoop_length]
  refine ⟨hlen, ?_, ?_⟩
  · intro hnum
    have h0 : num.toNat = 0 := Int.toNat_of_nonpos hnum
    rw [← List.length_eq_zero, hlen, h0]
  · rw [attachOrderNumbers_map_fst, hlen]

/-- Concrete instance of `c1_generateQuestions_count_ordinals`. -/
theorem c1_generateQuestions_count_ordinals_witness :
    (generateQuestions itName 3 ("medium".data) (fun _ _ => 0)).length = (3 : ℤ).toNat ∧
    ((3 : ℤ) ≤ 0 → generateQuestions itName 3 ("medium".data) (fun _ _ => 0) = []) ∧
    (attachOrderNumbers (generateQuestions itName 3 ("medium".data) (fun _ _ => 0))).map
      Prod.fst = List.range' 1 (3 : ℤ).toNat :=
  c1_generateQuestions_count_ordinals itName 3 ("medium".data) (fun _ _ => 0)

/-! ## C9: unknown domains fall back to the default domain -/

/-- C9: a domain string absent from the knowledge base is silently replaced
by the default domain, and every generated record carries that default
domain. -/
theorem c9_unknown_domain_defaults (domain : List Char) (num : ℤ)
    (difficulty : List Char) (o : ℕ → ℕ → ℕ)
    (h : hasKey domainKnowledge domain = false) :
    ∀ q ∈ generateQuestions domain num difficulty o, q.domain = itName := by
  intro q hq
  unfold generateQuestions at hq
  simp only [h, Bool.false_eq_true, if_false] at hq
  obtain ⟨p, hp, rfl⟩ := List.mem_map.mp hq
  exact genLoop_domain_eq _ _ _ _ _ _ _ _ _ hp

/-- Concrete instance of `c9_unknown_domain_defaults`. -/
theorem c9_unknown_domain_defaults_witness :
    hasKey domainKnowledge ("Astrology".data) = false ∧
    ∀ q ∈ generateQuestions ("Astrology".data) 2 ("medium".data) (fun _ _ => 0),
      q.domain = itName :=
  ⟨by decide, c9_unknown_domain_defaults ("Astrology".data) 2 ("medium".data)
    (fun _ _ => 0) (by decide)⟩

/-! ## C3: too-short answers get the terminal failed evaluation -/

/-- C3: an empty answer, or one whose stripped length is below 10
characters, yields the fixed failed evaluation: all scores 0, the fixed
feedback message, no strengths, and the single fixed improvement entry. -/
theorem c3_short_answer_failed (nlp : Option NLP)
    (answerText questionText difficulty : List Char)
    (h : answerText = [] ∨ (strip answerText).length < 10) :
    evaluateAnswer nlp answerText questionText difficulty =
      { clarity := 0, accuracy := 0, communication := 0, confidence := 0, overall := 0
      , feedback := "Answer is too short or empty.".data
      , strengths := []
      , improvements := ["Provide a complete answer to the question".data] } := by
  unfold evaluateAnswer
  rw [if_pos h]
  rfl

/-- Concrete instance of `c3_short_answer_failed` at the answer `"hi"`. -/
theorem c3_short_answer_failed_witness :
    ("hi".data = [] ∨ (strip ("hi".data)).length < 10) ∧
    evaluateAnswer none ("hi".data) ("What is OOP?".data) ("medium".data) =
      { clarity := 0, accuracy := 0, communication := 0, confidence := 0, overall := 0
      , feedback := "Answer is too short or empty.".data
      , strengths := []
      , improvements := ["Provide a complete answer to the question".data] } :=
  ⟨by decide, c3_short_answer_failed none ("hi".data) ("What is OOP?".data)
    ("medium".data) (by decide)⟩

/-! ## C8: no template reuse until the pool is exhausted -/

theorem filter_not_mem_cons_length (T : List (List Char)) (hT : T.Nodup)
    (x : List Char) (used : List (List Char)) (hx : x ∈ T) (hxu : x ∉ used) :
    (T.filter (fun t => !((x :: used).contains t))).length =
      (T.filter (fun t => !used.contains t)).length - 1 := by
  have h1 : T.filter (fun t => !((x :: used).contains t)) =
      (T.filter (fun t => !used.contains t)).filter (fun t => t != x) := by
    rw [List.filter_filter]
    apply List.filter_congr
    intro t ht
    by_cases hxe : t = x <;> simp [hxe, List.contains_cons, Bool.and_comm]
  have hxa : x ∈ T.filter (fun t => !used.contains t) := by
    rw [List.mem_filter]
    exact ⟨hx, by simp [hxu]⟩
  rw [h1, ← List.Nodup.erase_eq_filter (hT.filter _), List.length_erase_of_mem hxa]

theorem genLoop_sel_invariant (T : List (List Char)) (K : Knowledge)
    (dom diff : List Char) (o : ℕ → ℕ → ℕ) (hT : T.Nodup) :
    ∀ fuel used i, fuel ≤ (T.filter (fun t => !used.contains t)).length →
      ((genLoop T K dom diff o i fuel used).map Prod.fst).Nodup ∧
      ∀ t ∈ (genLoop T K dom diff o i fuel used).map Prod.fst, t ∈ T ∧ t ∉ used := by
  intro fuel
  induction fuel with
  | zero =>
    intro used i h
    refine ⟨by simp [genLoop], ?_⟩
    intro t ht
    simp [genLoop] at ht
  | succ n ih =>
    intro used i h
    have hE : (T.filter (fun t => !used.contains t)).isEmpty = false := by
      cases hE : (T.filter (fun t => !used.contains t)).isEmpty
      · rfl
      · rw [List.isEmpty_iff_length_eq_zero] at hE
        omega
    have hpos : 0 < (T.filter (fun t => !used.contains t)).length := by omega
    have hne : T.filter (fun t => !used.contains t) ≠ [] :=
      List.ne_nil_of_length_pos hpos
    simp only [genLoop, hE, if_false, Bool.false_eq_true]
    set avail := T.filter (fun t => !used.contains t) with havail
    set tpl := avail.getD (o i 0 % avail.length) [] with htpl
    have hmem : tpl ∈ avail := choose_mem avail (o i 0) [] hne
    have hmemT : tpl ∈ T := (List.mem_filter.mp hmem).1
    have hmemU : tpl ∉ used := by
      have := (List.mem_filter.mp hmem).2
      simpa using this
    have hrec : n ≤ (T.filter (fun t => !((tpl :: used).contains t))).length := by
      rw [filter_not_mem_cons_length T hT tpl used hmemT hmemU, ← havail]
      omega
    obtain ⟨ihn, ihm⟩ := ih (tpl :: used) (i + 1) hrec
    constructor
    · rw [List.map_cons, List.nodup_cons]
      refine ⟨?_, ihn⟩
      intro hcon
      have := (ihm tpl hcon).2
      simp at this
    · intro t ht
      rw [List.map_cons, List.mem_cons] at ht
      rcases ht with rfl | ht
      · exact ⟨hmemT, hmemU⟩
      · have := ihm t ht
        refine ⟨this.1, ?_⟩
        intro hu
        exact this.2 (List.mem_cons_of_mem _ hu)

/-- The domain actually used by a `generate_questions` call: the requested
one when known, the default otherwise. -/
def domainOrDefault (domain : List Char) : List Char :=
  if hasKey domainKnowledge domain then domain else itName

/-- The knowledge entry `generate_questions` draws from, after the
unknown-domain substitution. -/
def knowledgeFor (domain : List Char) : Knowledge :=
  lookupD domainKnowledge (domainOrDefault domain) emptyKnowledge

/-- The template pool `generate_questions` draws from, after the
unknown-domain substitution. -/
def templatePool (domain : List Char) : List (List Char) :=
  lookupD questionTemplates (domainOrDefault domain) []

theorem templatePool_nodup (domain : List Char) : (templatePool domain).Nodup := by
  unfold templatePool domainOrDefault
  by_cases hk : hasKey domainKnowledge domain = true
  · have hdom : domain = itName ∨ domain = hrName ∨ domain = financeName ∨
        domain = managementName := by
      simpa [hasKey, domainKnowledge] using hk
    rcases hdom with rfl | rfl | rfl | rfl <;> simp [hk] <;> decide
  · rw [Bool.not_eq_true] at hk
    simp only [hk, Bool.false_eq_true, if_false]
    decide

theorem genLoop_take (T : List (List Char)) (K : Knowledge) (dom diff : List Char)
    (o : ℕ → ℕ → ℕ) :
    ∀ k fuel i used, (genLoop T K dom diff o i fuel used).take k =
      genLoop T K dom diff o i (min fuel k) used := by
  intro k
  induction k with
  | zero =>
    intro fuel i used
    simp [genLoop]
  | succ n ih =>
    intro fuel i used
    cases fuel with
    | zero => simp [genLoop]
    | succ m =>
      rw [show min (m + 1) (n + 1) = min m n + 1 by omega]
      simp only [genLoop]
      rw [List.take_succ_cons, ih]

theorem genLoop_sel_mem (T : List (List Char)) (K : Knowledge) (dom diff : List Char)
    (o : ℕ → ℕ → ℕ) (hTne : T ≠ []) :
    ∀ fuel i used, ∀ t ∈ (genLoop T K dom diff o i fuel used).map Prod.fst, t ∈ T := by
  intro fuel
  induction fuel with
  | zero =>
    intro i used t ht
    simp [genLoop] at ht
  | succ n ih =>
    intro i used t ht
    cases hE : (T.filter (fun u => !used.contains u)).isEmpty with
    | true =>
      simp only [genLoop, hE, if_true, List.map_cons, List.mem_cons] at ht
      rcases ht with rfl | ht
      · exact choose_mem T (o i 0) [] hTne
      · exact ih _ _ _ ht
    | false =>
      simp only [genLoop, hE, if_false, Bool.false_eq_true, List.map_cons,
        List.mem_cons] at ht
      rcases ht with rfl | ht
      · have hne : T.filter (fun u => !used.contains u) ≠ [] := by
          intro hc
          rw [hc] at hE
          simp at hE
        exact (List.mem_filter.mp
          (choose_mem (T.filter (fun u => !used.contains u)) (o i 0) [] hne)).1
      · exact ih _ _ _ ht

/-- C8: within one `generate_questions` call, no template is selected a
second time until the whole pool has been selected once: every selection
prefix is either duplicate-free or already covers the pool.  In
particular, when the count does not exceed the pool size the selections
are pairwise distinct; every selection is drawn from the pool; and when
the pool is exhausted the used set is reset and the iteration selects
from the full pool again, continuing with only the fresh pick marked
used. -/
theorem c8_no_template_reuse (domain : List Char) (num : ℤ) (difficulty : List Char)
    (o : ℕ → ℕ → ℕ) :
    (∀ j : ℕ,
      (∀ t ∈ templatePool domain,
        t ∈ (selectedTemplates domain num difficulty o).take j) ∨
      ((selectedTemplates domain num difficulty o).take j).Nodup) ∧
    (num.toNat ≤ (templatePool domain).length →
      (selectedTemplates domain num difficulty o).Nodup) ∧
    (∀ t ∈ selectedTemplates domain num difficulty o, t ∈ templatePool domain) ∧
    (∀ i fuel used,
      ((templatePool domain).filter (fun t => !used.contains t)).isEmpty = true →
      genLoop (templatePool domain) (knowledgeFor domain) (domainOrDefault domain)
          difficulty o i (fuel + 1) used =
        (chooseD (templatePool domain) (o i 0),
          { text := fillTemplate (chooseD (templatePool domain) (o i 0))
              (domainOrDefault domain) (knowledgeFor domain) (o i 1) (o i 2) (o i 3)
          , qtype := determineQuestionType (chooseD (templatePool domain) (o i 0))
          , difficulty := difficulty
          , domain := domainOrDefault domain }) ::
        genLoop (templatePool domain) (knowledgeFor domain) (domainOrDefault domain)
          difficulty o (i + 1) fuel [chooseD (templatePool domain) (o i 0)]) := by
  have hT := templatePool_nodup domain
  have hTne : templatePool domain ≠ [] := by
    unfold templatePool domainOrDefault
    by_cases hk : hasKey domainKnowledge domain = true
    · have hdom : domain = itName ∨ domain = hrName ∨ domain = financeName ∨
          domain = managementName := by
        simpa [hasKey, domainKnowledge] using hk
      rcases hdom with rfl | rfl | rfl | rfl <;> simp [hk] <;> decide
    · rw [Bool.not_eq_true] at hk
      simp only [hk, Bool.false_eq_true, if_false]
      decide
  have hfilter :
      (templatePool domain).filter (fun t => !([] : List (List Char)).contains t) =
        templatePool domain := by
    simp
  -- the selections, as prefixes of the generation loop
  have hsel : selectedTemplates domain num difficulty o =
      (genLoop (templatePool domain) (knowledgeFor domain) (domainOrDefault domain)
        difficulty o 0 num.toNat []).map Prod.fst := rfl
  have hnodup_of_le : ∀ fuel, fuel ≤ (templatePool domain).length →
      ((genLoop (templatePool domain) (knowledgeFor domain) (domainOrDefault domain)
        difficulty o 0 fuel []).map Prod.fst).Nodup ∧
      ∀ t ∈ (genLoop (templatePool domain) (knowledgeFor domain)
          (domainOrDefault domain) difficulty o 0 fuel []).map Prod.fst,
        t ∈ templatePool domain ∧ t ∉ ([] : List (List Char)) := by
    intro fuel hfuel
    exact genLoop_sel_invariant (templatePool domain) (knowledgeFor domain)
      (domainOrDefault domain) difficulty o hT fuel [] 0 (by rw [hfilter]; exact hfuel)
  -- the first min(count, pool size) selections
  have htake : ∀ k, (selectedTemplates domain num difficulty o).take k =
      (genLoop (templatePool domain) (knowledgeFor domain) (domainOrDefault domain)
        difficulty o 0 (min num.toNat k) []).map Prod.fst := by
    intro k
    rw [hsel, (List.map_take Prod.fst _ k).symm, genLoop_take]
  have hlen : ∀ fuel, ((genLoop (templatePool domain) (knowledgeFor domain)
      (domainOrDefault domain) difficulty o 0 fuel []).map Prod.fst).length = fuel := by
    intro fuel
    rw [List.length_map, genLoop_length]
  refine ⟨?_, ?_, ?_, ?_⟩
  · -- no reuse until the pool is covered
    intro j
    by_cases hc : num.toNat ≤ (templatePool domain).length
    · right
      have hnd := (hnodup_of_le num.toNat hc).1
      rw [← hsel] at hnd
      exact hnd.sublist (List.take_sublist j _)
    · push_neg at hc
      by_cases hj : j ≤ (templatePool domain).length
      · right
        have hmin : min num.toNat j = j := by omega
        rw [htake j, hmin]
        exact (hnodup_of_le j hj).1
      · left
        push_neg at hj
        intro t ht
        -- the first pool-length selections are a permutation of the pool
        have hp := hnodup_of_le (templatePool domain).length le_rfl
        have hsub : ∀ u ∈ (genLoop (templatePool domain) (knowledgeFor domain)
            (domainOrDefault domain) difficulty o 0 (templatePool domain).length
            []).map Prod.fst, u ∈ templatePool domain := fun u hu => (hp.2 u hu).1
        have hsp := List.subperm_of_subset hp.1 hsub
        have hperm := hsp.perm_of_length_le (by rw [hlen])
        have hmem := hperm.mem_iff.mpr ht
        have hminp : min num.toNat (templatePool domain).length =
            (templatePool domain).length := by omega
        have hcov : t ∈ (selectedTemplates domain num difficulty o).take
            (templatePool domain).length := by
          rw [htake, hminp]
          exact hmem
        have hsplit : (selectedTemplates domain num difficulty o).take
            (templatePool domain).length =
            ((selectedTemplates domain num difficulty o).take j).take
              (templatePool domain).length := by
          rw [List.take_take, min_eq_left (by omega)]
        rw [hsplit] at hcov
        exact List.take_subset _ _ hcov
  · -- pairwise distinct when the count fits in the pool
    intro h
    have hnd := (hnodup_of_le num.toNat h).1
    rw [← hsel] at hnd
    exact hnd
  · -- every selection is drawn from the pool
    intro t ht
    rw [hsel] at ht
    exact genLoop_sel_mem (templatePool domain) (knowledgeFor domain)
      (domainOrDefault domain) difficulty o hTne num.toNat 0 [] t ht
  · -- pool exhausted: the used set resets and selection restarts on the pool
    intro i fuel used hE
    simp only [genLoop, hE, if_true]
    rfl

/-- Concrete instance of `c8_no_template_reuse` with a count above the
pool size, exercising the coverage-or-distinct alternative. -/
theorem c8_no_template_reuse_witness :
    (∀ j : ℕ,
      (∀ t ∈ templatePool ("Finance".data),
        t ∈ (selectedTemplates ("Finance".data) 12 ("medium".data)
          (fun i j => i + j)).take j) ∨
      ((selectedTemplates ("Finance".data) 12 ("medium".data)
        (fun i j => i + j)).take j).Nodup) ∧
    ((12 : ℤ).toNat ≤ (templatePool ("Finance".data)).length →
      (selectedTemplates ("Finance".data) 12 ("medium".data)
        (fun i j => i + j)).Nodup) ∧
    (∀ t ∈ selectedTemplates ("Finance".data) 12 ("medium".data) (fun i j => i + j),
      t ∈ templatePool ("Finance".data)) ∧
    (∀ i fuel used,
      ((templatePool ("Finance".data)).filter (fun t => !used.contains t)).isEmpty = true →
      genLoop (templatePool ("Finance".data)) (knowledgeFor ("Finance".data))
          (domainOrDefault ("Finance".data)) ("medium".data) (fun i j => i + j) i
          (fuel + 1) used =
        (chooseD (templatePool ("Finance".data)) (i + 0),
          { text := fillTemplate (chooseD (templatePool ("Finance".data)) (i + 0))
              (domainOrDefault ("Finance".data)) (knowledgeFor ("Finance".data))
              (i + 1) (i + 2) (i + 3)
          , qtype := determineQuestionType (chooseD (templatePool ("Finance".data)) (i + 0))
          , difficulty := ("medium".data)
          , domain := domainOrDefault ("Finance".data) }) ::
        genLoop (templatePool ("Finance".data)) (knowledgeFor ("Finance".data))
          (domainOrDefault ("Finance".data)) ("medium".data) (fun i j => i + j)
          (i + 1) fuel [chooseD (templatePool ("Finance".data)) (i + 0)]) :=
  c8_no_template_reuse ("Finance".data) 12 ("medium".data) (fun i j => i + j)

theorem noBrace_replace_choose (ph : List Char) (vals : List (List Char))
    (t : List Char) (n : ℕ) (hvne : vals ≠ [])
    (hall : ∀ v ∈ vals, noBrace (replaceSub ph v t) = true) :
    noBrace (replaceSub ph (chooseD vals n) t) = true :=
  hall _ (choose_mem vals n [] hvne)

theorem noBrace_fillConceptPair (t : List Char) (pair : List (List Char)) (n2 n3 : ℕ)
    (hall : ∀ v1 ∈ pair, ∀ v2 ∈ pair,
      noBrace (replaceSub concept2Ph v2 (replaceSub concept1Ph v1 t)) = true)
    (hlen : 2 ≤ pair.length) :
    noBrace (fillConceptPair t pair n2 n3) = true := by
  unfold fillConceptPair samplePair
  rw [if_pos hlen]
  have hplen : 0 < pair.length := by omega
  have hi : n2 % pair.length < pair.length := Nat.mod_lt _ hplen
  have hc1 : pair.getD (n2 % pair.length) [] ∈ pair :=
    choose_mem pair n2 [] (List.ne_nil_of_length_pos hplen)
  have hrl : (pair.eraseIdx (n2 % pair.length)).length = pair.length - 1 := by
    have := List.length_eraseIdx_add_one hi
    omega
  have hrne : pair.eraseIdx (n2 % pair.length) ≠ [] := by
    apply List.ne_nil_of_length_pos
    omega
  have hc2m := choose_mem (pair.eraseIdx (n2 % pair.length)) n3 [] hrne
  have hc2 : (pair.eraseIdx (n2 % pair.length)).getD
      (n3 % (pair.eraseIdx (n2 % pair.length)).length) [] ∈ pair :=
    (List.eraseIdx_sublist pair (n2 % pair.length)).subset hc2m
  exact hall _ hc1 _ hc2

theorem noBrace_fillConceptPair_choose (t : List Char)
    (groups : List (List (List Char))) (n1 n2 n3 : ℕ) (hgne : groups ≠ [])
    (hall : ∀ g ∈ groups, 2 ≤ g.length ∧ ∀ v1 ∈ g, ∀ v2 ∈ g,
      noBrace (replaceSub concept2Ph v2 (replaceSub concept1Ph v1 t)) = true) :
    noBrace (fillConceptPair t (groups.getD (n1 % groups.length) []) n2 n3) = true := by
  have hg : groups.getD (n1 % groups.length) [] ∈ groups := choose_mem _ n1 [] hgne
  obtain ⟨hlen, hall2⟩ := hall _ hg
  exact noBrace_fillConceptPair _ _ n2 n3 hall2 hlen

theorem noBrace_replace_pair_choose (ph1 ph2 : List Char)
    (opts : List (List Char × List Char)) (t : List Char) (n : ℕ)
    (hne : opts ≠ [])
    (hall : ∀ v ∈ opts, noBrace (replaceSub ph2 v.2 (replaceSub ph1 v.1 t)) = true) :
    noBrace (replaceSub ph2 (opts.getD (n % opts.length) ([], [])).2
      (replaceSub ph1 (opts.getD (n % opts.length) ([], [])).1 t)) = true :=
  hall _ (choose_mem opts n ([], []) hne)

theorem fill_it_noBrace : ∀ t ∈ itTemplates, ∀ n1 n2 n3 : ℕ,
    noBrace (fillTemplate t itName itKnowledge n1 n2 n3) = true := by
  intro t ht
  fin_cases ht <;> intro n1 n2 n3
  · exact noBrace_replace_choose topicPh itKnowledge.topics _ n1 (by decide) (by decide)
  · exact noBrace_fillConceptPair_choose _ (itKnowledge.concepts.map Prod.snd) n1 n2 n3
      (by decide) (by decide)
  · exact noBrace_replace_choose scenarioPh auxScenarios _ n1 (by decide) (by decide)
  · exact noBrace_replace_choose technologyPh itKnowledge.technologies _ n1
      (by decide) (by decide)
  · exact noBrace_replace_choose topicPh itKnowledge.topics _ n1 (by decide) (by decide)
  · exact noBrace_replace_choose componentPh auxComponents _ n1 (by decide) (by decide)
  · exact noBrace_replace_pair_choose option1Ph option2Ph auxOptions _ n1
      (by decide) (by decide)
  · exact noBrace_replace_choose technologyPh itKnowledge.technologies _ n1
      (by decide) (by decide)
  · exact noBrace_replace_choose topicPh itKnowledge.topics _ n1 (by decide) (by decide)
  · exact noBrace_replace_choose technologyPh itKnowledge.technologies _ n1
      (by decide) (by decide)

theorem fill_hr_noBrace : ∀ t ∈ hrTemplates, ∀ n1 n2 n3 : ℕ,
    noBrace (fillTemplate t hrName hrKnowledge n1 n2 n3) = true := by
  intro t ht
  fin_cases ht <;> intro n1 n2 n3
  · exact rfl
  · exact noBrace_replace_choose situationPh hrKnowledge.situations _ n1
      (by decide) (by decide)
  · exact noBrace_replace_choose challengePh hrKnowledge.challenges _ n1
      (by decide) (by decide)
  · exact rfl
  · exact rfl
  · exact rfl
  · exact rfl
  · exact rfl
  · exact rfl
  · exact rfl

theorem fill_finance_noBrace : ∀ t ∈ financeTemplates, ∀ n1 n2 n3 : ℕ,
    noBrace (fillTemplate t financeName financeKnowledge n1 n2 n3) = true := by
  intro t ht
  fin_cases ht <;> intro n1 n2 n3
  · exact noBrace_replace_choose conceptPh
      ((financeKnowledge.concepts.map Prod.snd).flatten) _ n1 (by decide) (by decide)
  · exact noBrace_replace_choose scenarioPh financeKnowledge.scenarios _ n1
      (by decide) (by decide)
  · exact noBrace_replace_choose investmentTypePh auxInvestments _ n1
      (by decide) (by decide)
  · exact noBrace_replace_choose toolPh
      (lookupD financeKnowledge.concepts ("Tools".data) []) _ n1 (by decide) (by decide)
  · exact rfl
  · exact noBrace_replace_choose eventPh auxEvents _ n1 (by decide) (by decide)
  · exact noBrace_replace_choose contextPh auxContexts _ n1 (by decide) (by decide)
  · exact rfl
  · exact rfl
  · exact rfl

theorem fill_management_noBrace : ∀ t ∈ managementTemplates, ∀ n1 n2 n3 : ℕ,
    noBrace (fillTemplate t managementName managementKnowledge n1 n2 n3) = true := by
  intro t ht
  fin_cases ht <;> intro n1 n2 n3 <;> exact rfl

theorem genLoop_text_fill (T : List (List Char)) (K : Knowledge) (dom diff : List Char)
    (o : ℕ → ℕ → ℕ) (hTne : T ≠ []) :
    ∀ fuel i used, ∀ p ∈ genLoop T K dom diff o i fuel used,
      ∃ tpl ∈ T, ∃ n1 n2 n3 : ℕ, p.2.text = fillTemplate tpl dom K n1 n2 n3 := by
  intro fuel
  induction fuel with
  | zero =>
    intro i used p hp
    simp [genLoop] at hp
  | succ n ih =>
    intro i used p hp
    cases hE : (T.filter (fun t => !used.contains t)).isEmpty with
    | true =>
      simp only [genLoop, hE, if_true, List.mem_cons] at hp
      rcases hp with hp | hp
      · refine ⟨T.getD (o i 0 % T.length) [], choose_mem T (o i 0) [] hTne,
          o i 1, o i 2, o i 3, ?_⟩
        rw [hp]
      · exact ih _ _ _ hp
    | false =>
      simp only [genLoop, hE, if_false, Bool.false_eq_true, List.mem_cons] at hp
      rcases hp with hp | hp
      · have hne : T.filter (fun t => !used.contains t) ≠ [] := by
          intro hc
          rw [hc] at hE
          simp at hE
        have hmem := choose_mem (T.filter (fun t => !used.contains t)) (o i 0) [] hne
        refine ⟨(T.filter (fun t => !used.contains t)).getD
            (o i 0 % (T.filter (fun t => !used.contains t)).length) [],
          (List.mem_filter.mp hmem).1, o i 1, o i 2, o i 3, ?_⟩
        rw [hp]
      · exact ih _ _ _ hp

/-- C2 (amended): every question text returned by `generate_questions`
contains no placeholder marker. -/
theorem c2_no_placeholder_markers (domain : List Char) (num : ℤ)
    (difficulty : List Char) (o : ℕ → ℕ → ℕ) :
    ∀ q ∈ generateQuestions domain num difficulty o, noBrace q.text = true := by
  intro q hq
  unfold generateQuestions at hq
  obtain ⟨p, hp, rfl⟩ := List.mem_map.mp hq
  by_cases hk : hasKey domainKnowledge domain = true
  · have hdom : domain = itName ∨ domain = hrName ∨ domain = financeName ∨
        domain = managementName := by
      simpa [hasKey, domainKnowledge] using hk
    rcases hdom with rfl | rfl | rfl | rfl
    · obtain ⟨tpl, htpl, n1, n2, n3, htext⟩ :=
        genLoop_text_fill itTemplates itKnowledge itName difficulty o
          (by decide) _ _ _ p hp
      rw [htext]
      exact fill_it_noBrace tpl htpl n1 n2 n3
    · obtain ⟨tpl, htpl, n1, n2, n3, htext⟩ :=
        genLoop_text_fill hrTemplates hrKnowledge hrName difficulty o
          (by decide) _ _ _ p hp
      rw [htext]
      exact fill_hr_noBrace tpl htpl n1 n2 n3
    · obtain ⟨tpl, htpl, n1, n2, n3, htext⟩ :=
        genLoop_text_fill financeTemplates financeKnowledge financeName difficulty o
          (by decide) _ _ _ p hp
      rw [htext]
      exact fill_finance_noBrace tpl htpl n1 n2 n3
    · obtain ⟨tpl, htpl, n1, n2, n3, htext⟩ :=
        genLoop_text_fill managementTemplates managementKnowledge managementName
          difficulty o (by decide) _ _ _ p hp
      rw [htext]
      exact fill_management_noBrace tpl htpl n1 n2 n3
  · rw [Bool.not_eq_true] at hk
    simp only [hk, Bool.false_eq_true, if_false] at hp
    obtain ⟨tpl, htpl, n1, n2, n3, htext⟩ :=
      genLoop_text_fill itTemplates itKnowledge itName difficulty o
        (by decide) _ _ _ p hp
    rw [htext]
    exact fill_it_noBrace tpl htpl n1 n2 n3

theorem c2_counterexample_no_redraw :
    fillTemplate
        ("What is the difference between \x7bconcept1\x7d and \x7bconcept2\x7d?".data)
        itName
        { emptyKnowledge with concepts := [("OOP".data, ["Encapsulation".data])] }
        0 0 0 =
      "What is the difference between \x7bconcept1\x7d and \x7bconcept2\x7d?".data ∧
    noBrace (fillTemplate
        ("What is the difference between \x7bconcept1\x7d and \x7bconcept2\x7d?".data)
        itName
        { emptyKnowledge with concepts := [("OOP".data, ["Encapsulation".data])] }
        0 0 0) = false := by
  constructor
  · rfl
  · rfl

theorem c2_no_placeholder_markers_witness :
    noBrace ((generateQuestions itName 1 ("medium".data) (fun _ _ => 0)).headD
      ⟨[], [], [], []⟩).text = true := by
  have h := c2_no_placeholder_markers itName 1 ("medium".data) (fun _ _ => 0)
  exact h _ (by decide)

/-! ## Rounding lemmas -/

theorem round2_mono {x y : ℚ} (h : x ≤ y) : round2 x ≤ round2 y := by
  unfold round2
  apply (div_le_div_iff_of_pos_right (by norm_num)).mpr
  apply Int.cast_le.mpr
  rw [round_eq, round_eq]
  exact Int.floor_le_floor (by linarith)

theorem round2_natCast (n : ℕ) : round2 ((n : ℚ)) = n := by
  unfold round2
  rw [show ((n : ℚ) * 100) = (((n * 100 : ℕ) : ℤ) : ℚ) by push_cast; ring, round_intCast]
  push_cast
  field_simp

theorem round2_between {x : ℚ} {a b : ℕ} (ha : (a : ℚ) ≤ x) (hb : x ≤ (b : ℚ)) :
    (a : ℚ) ≤ round2 x ∧ round2 x ≤ (b : ℚ) := by
  constructor
  · calc (a : ℚ) = round2 ((a : ℚ)) := (round2_natCast a).symm
      _ ≤ round2 x := round2_mono ha
  · calc round2 x ≤ round2 ((b : ℚ)) := round2_mono hb
      _ = b := round2_natCast b

theorem abs_round2_sub (x : ℚ) : |round2 x - x| ≤ 1 / 200 := by
  unfold round2
  have h : ((round (x * 100) : ℤ) : ℚ) / 100 - x =
      -((x * 100 - (round (x * 100) : ℤ)) / 100) := by ring
  rw [h, abs_neg, abs_div]
  have h2 := abs_sub_round (x * 100)
  have h3 : |(100 : ℚ)| = 100 := by norm_num
  rw [h3, div_le_div_iff₀ (by norm_num) (by norm_num)]
  linarith

/-! ## Sub-score bounds -/

theorem clarityStructureBonus_bounds (nlp : Option NLP) (answerText : List Char) :
    -5 ≤ clarityStructureBonus nlp answerText ∧
      clarityStructureBonus nlp answerText ≤ 30 := by
  rcases nlp with _ | p <;>
    simp only [clarityStructureBonus] <;> constructor <;> split_ifs <;> norm_num

theorem capitalBonus_bounds (answerText : List Char) :
    0 ≤ capitalBonus answerText ∧ capitalBonus answerText ≤ 5 := by
  rcases answerText with _ | ⟨c, rest⟩ <;> simp only [capitalBonus] <;> constructor <;>
    first
      | (split_ifs <;> norm_num)
      | norm_num

theorem evaluateClarity_bounds (nlp : Option NLP) (answerText : List Char)
    (answerLength : ℕ) :
    0 ≤ evaluateClarity nlp answerText answerLength ∧
      evaluateClarity nlp answerText answerLength ≤ 100 := by
  have h1 := clarityStructureBonus_bounds nlp answerText
  have h2 := capitalBonus_bounds answerText
  unfold evaluateClarity
  refine ⟨le_min ?_ (by norm_num), min_le_right _ _⟩
  split_ifs <;> linarith [h1.1, h2.1]

theorem accuracySignalBonus_nonneg (nlp : Option NLP)
    (answerText questionText : List Char)
    (hsim : ∀ p, nlp = some p → 0 ≤ p.similarity answerText questionText) :
    0 ≤ accuracySignalBonus nlp answerText questionText := by
  rcases nlp with _ | p
  · simp only [accuracySignalBonus]
    split_ifs
    · exact le_min (by positivity) (by norm_num)
    · norm_num
  · have hs := hsim p rfl
    simp only [accuracySignalBonus]
    have he : (0:ℚ) ≤ (if 0 < entityOverlapCount p answerText questionText then
        min ((entityOverlapCount p answerText questionText : ℚ) * 5) 15 else 0) := by
      split_ifs
      · exact le_min (by positivity) (by norm_num)
      · norm_num
    have hk : (0:ℚ) ≤ (if 0 < lemmaOverlapCount p answerText questionText then
        min ((lemmaOverlapCount p answerText questionText : ℚ) * 3) 20 else 0) := by
      split_ifs
      · exact le_min (by positivity) (by norm_num)
      · norm_num
    nlinarith [hs, he, hk]

theorem accuracyTechBonus_bounds (answerLower questionLower : List Char) :
    0 ≤ accuracyTechBonus answerLower questionLower ∧
      accuracyTechBonus answerLower questionLower ≤ 20 := by
  unfold accuracyTechBonus
  constructor <;> split_ifs <;>
    first
      | exact le_min (by positivity) (by norm_num)
      | exact min_le_right _ _
      | norm_num

theorem accuracyExampleBonus_bounds (answerLower : List Char) :
    0 ≤ accuracyExampleBonus answerLower ∧ accuracyExampleBonus answerLower ≤ 10 := by
  unfold accuracyExampleBonus
  constructor <;> split_ifs <;> norm_num

theorem accuracyPre_nonneg (nlp : Option NLP) (answerText questionText : List Char)
    (hsim : ∀ p, nlp = some p → 0 ≤ p.similarity answerText questionText) :
    0 ≤ accuracyPre nlp answerText questionText := by
  unfold accuracyPre
  have h1 := accuracySignalBonus_nonneg nlp answerText questionText hsim
  have h2 := accuracyTechBonus_bounds (lowerC answerText) (lowerC questionText)
  have h3 := accuracyExampleBonus_bounds (lowerC answerText)
  linarith [h2.1, h3.1]

theorem difficultyMult_nonneg (difficulty : List Char) : 0 ≤ difficultyMult difficulty := by
  unfold difficultyMult
  split_ifs <;> norm_num

theorem evaluateAccuracy_bounds (nlp : Option NLP)
    (answerText questionText difficulty : List Char)
    (hsim : ∀ p, nlp = some p → 0 ≤ p.similarity answerText questionText) :
    0 ≤ evaluateAccuracy nlp answerText questionText difficulty ∧
      evaluateAccuracy nlp answerText questionText difficulty ≤ 100 := by
  unfold evaluateAccuracy
  refine ⟨le_min ?_ (by norm_num), min_le_right _ _⟩
  have h1 := accuracyPre_nonneg nlp answerText questionText hsim
  have h2 := difficultyMult_nonneg difficulty
  positivity

theorem commNLPBonus_bounds (nlp : Option NLP) (answerText : List Char) :
    0 ≤ commNLPBonus nlp answerText ∧ commNLPBonus nlp answerText ≤ 30 := by
  rcases nlp with _ | p
  · simp only [commNLPBonus]
    norm_num
  · simp only [commNLPBonus]
    have ha1 : (0:ℚ) ≤ min ((transitionCount p answerText : ℚ) * 5) 15 :=
      le_min (by positivity) (by norm_num)
    have ha2 : min ((transitionCount p answerText : ℚ) * 5) 15 ≤ 15 := min_le_right _ _
    have hb1 : (0:ℚ) ≤ min ((conjunctionCount p answerText : ℚ) * 2) 10 :=
      le_min (by positivity) (by norm_num)
    have hb2 : min ((conjunctionCount p answerText : ℚ) * 2) 10 ≤ 10 := min_le_right _ _
    constructor <;> split_ifs <;> linarith

theorem evaluateCommunication_bounds (nlp : Option NLP)
    (answerText answerLower : List Char) :
    50 ≤ evaluateCommunication nlp answerText answerLower ∧
      evaluateCommunication nlp answerText answerLower ≤ 100 := by
  unfold evaluateCommunication
  have h1 := commNLPBonus_bounds nlp answerText
  have h2 : (0:ℚ) ≤ min ((countOccur communicationIndicators answerLower : ℚ) * 8) 20 :=
    le_min (by positivity) (by norm_num)
  have h3 : (0:ℚ) ≤ min ((countOccur structureWords answerLower : ℚ) * 5) 15 :=
    le_min (by positivity) (by norm_num)
  have h4 : (0:ℚ) ≤ min ((countOccur positiveIndicators answerLower : ℚ) * 3) 15 :=
    le_min (by positivity) (by norm_num)
  exact ⟨le_min (by linarith [h1.1]) (by norm_num), min_le_right _ _⟩

theorem evaluateConfidence_bounds (answerLower : List Char) :
    0 ≤ evaluateConfidence answerLower ∧ evaluateConfidence answerLower ≤ 100 := by
  unfold evaluateConfidence
  refine ⟨le_max_right _ _, max_le (min_le_right _ _) (by norm_num)⟩

/-! ## C4: all scores within bounds -/

/-- C4: for every input (and any provider whose similarity value is within
[0, 1]), the four sub-scores and the overall score returned by
`evaluate_answer` lie within [0, 100]. -/
theorem c4_scores_in_range (nlp : Option NLP)
    (answerText questionText difficulty : List Char)
    (hsim : ∀ p, nlp = some p → 0 ≤ p.similarity answerText questionText ∧
      p.similarity answerText questionText ≤ 1) :
    (0 ≤ (evaluateAnswer nlp answerText questionText difficulty).clarity ∧
      (evaluateAnswer nlp answerText questionText difficulty).clarity ≤ 100) ∧
    (0 ≤ (evaluateAnswer nlp answerText questionText difficulty).accuracy ∧
      (evaluateAnswer nlp answerText questionText difficulty).accuracy ≤ 100) ∧
    (0 ≤ (evaluateAnswer nlp answerText questionText difficulty).communication ∧
      (evaluateAnswer nlp answerText questionText difficulty).communication ≤ 100) ∧
    (0 ≤ (evaluateAnswer nlp answerText questionText difficulty).confidence ∧
      (evaluateAnswer nlp answerText questionText difficulty).confidence ≤ 100) ∧
    (0 ≤ (evaluateAnswer nlp answerText questionText difficulty).overall ∧
      (evaluateAnswer nlp answerText questionText difficulty).overall ≤ 100) := by
  have hsim0 : ∀ p, nlp = some p → 0 ≤ p.similarity answerText questionText :=
    fun p hp => (hsim p hp).1
  unfold evaluateAnswer
  by_cases h : answerText = [] ∨ (strip answerText).length < 10
  · rw [if_pos h]
    unfold failedEvaluation
    norm_num
  · rw [if_neg h]
    simp only
    have hc := evaluateClarity_bounds nlp answerText answerText.length
    have ha := evaluateAccuracy_bounds nlp answerText questionText difficulty hsim0
    have hm := evaluateCommunication_bounds nlp answerText (lowerC answerText)
    have hf := evaluateConfidence_bounds (lowerC answerText)
    have hc2 := round2_between (x := evaluateClarity nlp answerText answerText.length)
      (a := 0) (b := 100) (by exact_mod_cast hc.1) (by exact_mod_cast hc.2)
    have ha2 := round2_between
      (x := evaluateAccuracy nlp answerText questionText difficulty)
      (a := 0) (b := 100) (by exact_mod_cast ha.1) (by exact_mod_cast ha.2)
    have hm2 := round2_between
      (x := evaluateCommunication nlp answerText (lowerC answerText))
      (a := 0) (b := 100) (by push_cast; linarith [hm.1]) (by exact_mod_cast hm.2)
    have hf2 := round2_between (x := evaluateConfidence (lowerC answerText))
      (a := 0) (b := 100) (by exact_mod_cast hf.1) (by exact_mod_cast hf.2)
    have ho : (0:ℚ) ≤ evaluateClarity nlp answerText answerText.length * 0.25 +
        evaluateAccuracy nlp answerText questionText difficulty * 0.30 +
        evaluateCommunication nlp answerText (lowerC answerText) * 0.25 +
        evaluateConfidence (lowerC answerText) * 0.20 := by
      nlinarith [hc.1, ha.1, hm.1, hf.1]
    have ho' : evaluateClarity nlp answerText answerText.length * 0.25 +
        evaluateAccuracy nlp answerText questionText difficulty * 0.30 +
        evaluateCommunication nlp answerText (lowerC answerText) * 0.25 +
        evaluateConfidence (lowerC answerText) * 0.20 ≤ 100 := by
      nlinarith [hc.2, ha.2, hm.2, hf.2]
    have ho2 := round2_between
      (x := evaluateClarity nlp answerText answerText.length * 0.25 +
        evaluateAccuracy nlp answerText questionText difficulty * 0.30 +
        evaluateCommunication nlp answerText (lowerC answerText) * 0.25 +
        evaluateConfidence (lowerC answerText) * 0.20)
      (a := 0) (b := 100) (by exact_mod_cast ho) (by exact_mod_cast ho')
    refine ⟨⟨?_, ?_⟩, ⟨?_, ?_⟩, ⟨?_, ?_⟩, ⟨?_, ?_⟩, ⟨?_, ?_⟩⟩ <;>
      first
        | exact_mod_cast hc2.1
        | exact_mod_cast hc2.2
        | exact_mod_cast ha2.1
        | exact_mod_cast ha2.2
        | exact_mod_cast hm2.1
        | exact_mod_cast hm2.2
        | exact_mod_cast hf2.1
        | exact_mod_cast hf2.2
        | exact_mod_cast ho2.1
        | exact_mod_cast ho2.2

/-- Concrete instance of `c4_scores_in_range` in lexical-fallback mode. -/
theorem c4_scores_in_range_witness :
    (0 ≤ (evaluateAnswer none ("I implemented a solution.".data)
        ("What is OOP?".data) ("medium".data)).clarity ∧
      (evaluateAnswer none ("I implemented a solution.".data)
        ("What is OOP?".data) ("medium".data)).clarity ≤ 100) ∧
    (0 ≤ (evaluateAnswer none ("I implemented a solution.".data)
        ("What is OOP?".data) ("medium".data)).accuracy ∧
      (evaluateAnswer none ("I implemented a solution.".data)
        ("What is OOP?".data) ("medium".data)).accuracy ≤ 100) ∧
    (0 ≤ (evaluateAnswer none ("I implemented a solution.".data)
        ("What is OOP?".data) ("medium".data)).communication ∧
      (evaluateAnswer none ("I implemented a solution.".data)
        ("What is OOP?".data) ("medium".data)).communication ≤ 100) ∧
    (0 ≤ (evaluateAnswer none ("I implemented a solution.".data)
        ("What is OOP?".data) ("medium".data)).confidence ∧
      (evaluateAnswer none ("I implemented a solution.".data)
        ("What is OOP?".data) ("medium".data)).confidence ≤ 100) ∧
    (0 ≤ (evaluateAnswer none ("I implemented a solution.".data)
        ("What is OOP?".data) ("medium".data)).overall ∧
      (evaluateAnswer none ("I implemented a solution.".data)
        ("What is OOP?".data) ("medium".data)).overall ≤ 100) :=
  c4_scores_in_range none ("I implemented a solution.".data) ("What is OOP?".data)
    ("medium".data) (fun _ hp => nomatch hp)

/-! ## C6: difficulty multiplier -/

/-- C6: with identical answer and question texts, the accuracy sub-score at
difficulty "hard" never exceeds the one at difficulty "easy", and for every
difficulty the score is the pre-multiplier accumulation times the
difficulty multiplier, capped at 100 afterwards. -/
theorem c6_hard_le_easy (nlp : Option NLP)
    (answerText questionText difficulty : List Char)
    (hsim : ∀ p, nlp = some p → 0 ≤ p.similarity answerText questionText) :
    evaluateAccuracy nlp answerText questionText ("hard".data) ≤
      evaluateAccuracy nlp answerText questionText ("easy".data) ∧
    evaluateAccuracy nlp answerText questionText difficulty =
      min (accuracyPre nlp answerText questionText * difficultyMult difficulty) 100 := by
  constructor
  · unfold evaluateAccuracy
    have hpre := accuracyPre_nonneg nlp answerText questionText hsim
    have hmh : difficultyMult ("hard".data) = 9 / 10 := rfl
    have hme : difficultyMult ("easy".data) = 11 / 10 := rfl
    rw [hmh, hme]
    have hmul : accuracyPre nlp answerText questionText * (9 / 10) ≤
        accuracyPre nlp answerText questionText * (11 / 10) := by nlinarith
    exact min_le_min hmul le_rfl
  · rfl

/-- Concrete instance of `c6_hard_le_easy` in lexical-fallback mode. -/
theorem c6_hard_le_easy_witness :
    evaluateAccuracy none ("I designed a database schema.".data)
        ("Explain database design.".data) ("hard".data) ≤
      evaluateAccuracy none ("I designed a database schema.".data)
        ("Explain database design.".data) ("easy".data) ∧
    evaluateAccuracy none ("I designed a database schema.".data)
        ("Explain database design.".data) ("hard".data) =
      min (accuracyPre none ("I designed a database schema.".data)
        ("Explain database design.".data) * difficultyMult ("hard".data)) 100 :=
  c6_hard_le_easy none ("I designed a database schema.".data)
    ("Explain database design.".data) ("hard".data) (fun _ hp => nomatch hp)

/-! ## C7: the overall score is the documented weighted sum -/

/-- C7: for every non-terminal evaluation, the returned overall score
equals the weighted sum 0.25·clarity + 0.30·accuracy + 0.25·communication
+ 0.20·confidence of the returned (rounded) sub-scores, up to the rounding
slack of 1/100. -/
theorem c7_overall_weighted_sum (nlp : Option NLP)
    (answerText questionText difficulty : List Char)
    (h : ¬(answerText = [] ∨ (strip answerText).length < 10)) :
    |(evaluateAnswer nlp answerText questionText difficulty).overall -
      (0.25 * (evaluateAnswer nlp answerText questionText difficulty).clarity +
       0.30 * (evaluateAnswer nlp answerText questionText difficulty).accuracy +
       0.25 * (evaluateAnswer nlp answerText questionText difficulty).communication +
       0.20 * (evaluateAnswer nlp answerText questionText difficulty).confidence)| ≤
      1 / 100 := by
  unfold evaluateAnswer
  rw [if_neg h]
  simp only
  have e0 := abs_le.mp (abs_round2_sub
    (evaluateClarity nlp answerText answerText.length * 0.25 +
     evaluateAccuracy nlp answerText questionText difficulty * 0.30 +
     evaluateCommunication nlp answerText (lowerC answerText) * 0.25 +
     evaluateConfidence (lowerC answerText) * 0.20))
  have e1 := abs_le.mp (abs_round2_sub (evaluateClarity nlp answerText answerText.length))
  have e2 := abs_le.mp (abs_round2_sub
    (evaluateAccuracy nlp answerText questionText difficulty))
  have e3 := abs_le.mp (abs_round2_sub
    (evaluateCommunication nlp answerText (lowerC answerText)))
  have e4 := abs_le.mp (abs_round2_sub (evaluateConfidence (lowerC answerText)))
  rw [abs_le]
  constructor <;> [linarith [e0.1, e0.2, e1.1, e1.2, e2.1, e2.2, e3.1, e3.2, e4.1, e4.2];
    linarith [e0.1, e0.2, e1.1, e1.2, e2.1, e2.2, e3.1, e3.2, e4.1, e4.2]]

/-- Concrete instance of `c7_overall_weighted_sum`. -/
theorem c7_overall_weighted_sum_witness :
    ¬(("I solved this by testing the API carefully.".data) = [] ∨
      (strip ("I solved this by testing the API carefully.".data)).length < 10) ∧
    |(evaluateAnswer none ("I solved this by testing the API carefully.".data)
        ("How do you debug?".data) ("medium".data)).overall -
      (0.25 * (evaluateAnswer none ("I solved this by testing the API carefully.".data)
        ("How do you debug?".data) ("medium".data)).clarity +
       0.30 * (evaluateAnswer none ("I solved this by testing the API carefully.".data)
        ("How do you debug?".data) ("medium".data)).accuracy +
       0.25 * (evaluateAnswer none ("I solved this by testing the API carefully.".data)
        ("How do you debug?".data) ("medium".data)).communication +
       0.20 * (evaluateAnswer none ("I solved this by testing the API carefully.".data)
        ("How do you debug?".data) ("medium".data)).confidence)| ≤ 1 / 100 :=
  ⟨by decide, c7_overall_weighted_sum none
    ("I solved this by testing the API carefully.".data)
    ("How do you debug?".data) ("medium".data) (by decide)⟩

/-! ## C10: the communication sub-score never drops below its base -/

/-- C10: for every non-terminal evaluation, the communication sub-score
returned by `evaluate_answer` lies in [50, 100]: the computation only adds
non-negative capped increments to its base of 50. -/
theorem c10_communication_at_least_base (nlp : Option NLP)
    (answerText questionText difficulty : List Char)
    (h : ¬(answerText = [] ∨ (strip answerText).length < 10)) :
    50 ≤ (evaluateAnswer nlp answerText questionText difficulty).communication ∧
      (evaluateAnswer nlp answerText questionText difficulty).communication ≤ 100 := by
  unfold evaluateAnswer
  rw [if_neg h]
  simp only
  have hm := evaluateCommunication_bounds nlp answerText (lowerC answerText)
  have hm2 := round2_between
    (x := evaluateCommunication nlp answerText (lowerC answerText))
    (a := 50) (b := 100) (by exact_mod_cast hm.1) (by exact_mod_cast hm.2)
  exact ⟨by exact_mod_cast hm2.1, by exact_mod_cast hm2.2⟩

/-- Concrete instance of `c10_communication_at_least_base`. -/
theorem c10_communication_at_least_base_witness :
    ¬(("Just a plain answer text.".data) = [] ∨
      (strip ("Just a plain answer text.".data)).length < 10) ∧
    (50 ≤ (evaluateAnswer none ("Just a plain answer text.".data)
        ("Any question?".data) ("medium".data)).communication ∧
      (evaluateAnswer none ("Just a plain answer text.".data)
        ("Any question?".data) ("medium".data)).communication ≤ 100) :=
  ⟨by decide, c10_communication_at_least_base none ("Just a plain answer text.".data)
    ("Any question?".data) ("medium".data) (by decide)⟩

/-! ## C5: lexical-fallback keyword extraction -/

/-- C5 (amended): in lexical-fallback mode the extracted keywords are at
most 10, each stopword-free and longer than 3 characters, listed in order
of occurrence (duplicates retained, not removed); the accuracy signal then
adds exactly min(overlap × 10, 30) for the distinct-keyword overlap. -/
theorem c5_fallback_keywords (text answerText questionText : List Char) :
    (extractKeywords none text).length ≤ 10 ∧
    (∀ w ∈ extractKeywords none text, w ∉ fallbackStopWords ∧ 3 < w.length) ∧
    List.Sublist (extractKeywords none text) (tokenize (lowerC text)) ∧
    accuracySignalBonus none answerText questionText =
      min ((keywordOverlapCount answerText questionText : ℚ) * 10) 30 := by
  refine ⟨List.length_take_le _ _, ?_, ?_, ?_⟩
  · intro w hw
    have h2 := List.mem_filter.mp (List.mem_of_mem_take hw)
    have h3 := h2.2
    simp only [Bool.and_eq_true, Bool.not_eq_true', decide_eq_true_eq] at h3
    refine ⟨?_, h3.2⟩
    intro hcon
    have h4 : fallbackStopWords.contains w = true := by simpa using hcon
    have h5 : fallbackStopWords.contains w = false := h3.1
    rw [h5] at h4
    exact Bool.false_ne_true h4
  · exact (List.take_sublist _ _).trans (List.filter_sublist _)
  · simp only [accuracySignalBonus]
    rcases Nat.eq_zero_or_pos (keywordOverlapCount answerText questionText) with h | h
    · rw [h]
      norm_num
    · rw [if_pos h]

/-- C5 counterexample: the lexical fallback keeps duplicate keywords — the
claimed duplicate removal happens only in the spaCy branch. -/
theorem c5_counterexample_duplicates :
    extractKeywords none ("data data data data".data) =
      ["data".data, "data".data, "data".data, "data".data] ∧
    ¬ (extractKeywords none ("data data data data".data)).Nodup := by
  constructor
  · rfl
  · decide

/-- Concrete instance of `c5_fallback_keywords`. -/
theorem c5_fallback_keywords_witness :
    (extractKeywords none ("Explain the algorithm design for database indexing".data)).length ≤ 10 ∧
    (∀ w ∈ extractKeywords none ("Explain the algorithm design for database indexing".data),
      w ∉ fallbackStopWords ∧ 3 < w.length) ∧
    List.Sublist (extractKeywords none ("Explain the algorithm design for database indexing".data))
      (tokenize (lowerC ("Explain the algorithm design for database indexing".data))) ∧
    accuracySignalBonus none ("I used an algorithm with indexing.".data)
        ("Explain the algorithm design for database indexing".data) =
      min ((keywordOverlapCount ("I used an algorithm with indexing.".data)
        ("Explain the algorithm design for database indexing".data) : ℚ) * 10) 30 :=
  c5_fallback_keywords ("Explain the algorithm design for database indexing".data)
    ("I used an algorithm with indexing.".data)
    ("Explain the algorithm design for database indexing".data)
